import Mathlib

/-!
Verification of the deferred-deletion scheduler of the Telegram
channel-protection bot (`src/bot.py`), as a shallow embedding.

SQLite rows become Lean structures, tables become lists, timestamps are
integers (the code compares DATETIME values; ordering is all that matters),
and the Telegram HTTP layer is abstracted: the Delete API's outcome for a
given `(channel_id, message_id)` is an explicit parameter of the sweeper.
-/

set_option maxHeartbeats 1000000

namespace ProtectionBot

/-- The content fields a Telegram message dict may carry, as far as
`extract_message_content` / `get_message_type` inspect them. -/
structure MsgContent where
  text : Option String := none
  caption : Option String := none
  sticker : Option String := none
  photo : Bool := false
  video : Bool := false
  document : Option String := none
  audio : Bool := false
  voice : Bool := false
deriving DecidableEq, Repr

/-- An inbound group/channel message as `handle_group_channel_message`
reads it: chat id, message id, date (present in every Telegram message,
whether or not the code reads it), optional `from` user, optional
`sender_chat`, optional `reply_to_message` (its message id), content. -/
structure Message where
  chat_id : Int
  message_id : Int
  date : Int
  fromUser : Option (Int × String) := none
  sender_chat : Option (Int × String) := none
  reply_to : Option Int := none
  content : MsgContent := {}
deriving DecidableEq, Repr

/-- A row of the `channel_admins` table (`user_id` is UNIQUE; note the
schema has no channel column). -/
structure AdminRow where
  user_id : Int
  first_name : String
  added_by : Int
  delete_after_seconds : Nat
  is_active : Bool
deriving DecidableEq, Repr

/-- A row of the `non_admin_posts` table; `id` is the AUTOINCREMENT key,
and the table has `UNIQUE(channel_id, message_id)`. -/
structure PostRow where
  id : Nat
  channel_id : Int
  message_id : Int
  user_id : Int
  user_name : String
  delete_after_seconds : Nat
  scheduled_delete_time : Int
  is_active : Bool
  deleted_at : Option Int
  post_content : String
  post_type : String
deriving DecidableEq, Repr

/-- A row of the `comment_notifications` table. -/
structure CommentRow where
  channel_id : Int
  original_message_id : Int
  comment_message_id : Int
  commenter_id : Int
  commenter_name : String
  comment_text : String
deriving DecidableEq, Repr

/-- The durable store: the tables of `setup_database` plus the
`bot_stats` counters and the next AUTOINCREMENT id for posts. -/
structure DB where
  channel_admins : List AdminRow
  bot_owners : List Int
  non_admin_posts : List PostRow
  global_delete_seconds : Nat
  comment_notifications : List CommentRow
  total_admins_added : Nat
  total_posts_deleted : Nat
  total_comments_detected : Nat
  next_post_id : Nat
deriving DecidableEq, Repr

/-- `setup_database`: empty tables, owners seeded from the environment,
`global_delete_seconds` defaults to 86400. -/
def setup_database (owners : List Int) : DB :=
  { channel_admins := []
    bot_owners := owners
    non_admin_posts := []
    global_delete_seconds := 86400
    comment_notifications := []
    total_admins_added := 0
    total_posts_deleted := 0
    total_comments_detected := 0
    next_post_id := 0 }

/-- `DELETE_TIME_OPTIONS` dictionary lookup. -/
def DELETE_TIME_OPTIONS : String → Option Nat
  | "30s" => some 30
  | "1m" => some 60
  | "5m" => some 300
  | "10m" => some 600
  | "1h" => some 3600
  | "2h" => some 7200
  | "12h" => some 43200
  | "24h" => some 86400
  | "never" => some 0
  | _ => none

/-- `is_authorized_user`: membership in the owner list. -/
def is_authorized_user (db : DB) (uid : Int) : Bool :=
  db.bot_owners.contains uid

/-- `SELECT ... FROM channel_admins WHERE user_id = ? AND is_active = 1`
(the query of `handle_group_channel_message`; it has no channel filter). -/
def admin_lookup (db : DB) (uid : Int) : Option AdminRow :=
  db.channel_admins.find? (fun a => a.user_id == uid && a.is_active)

/-- The delete delay `handle_group_channel_message` resolves for a sender:
the admin's own `delete_after_seconds` when an active admin row exists,
else the global setting. -/
def resolved_delete_seconds (db : DB) (uid : Int) : Nat :=
  match admin_lookup db uid with
  | some a => a.delete_after_seconds
  | none => db.global_delete_seconds

/-- Sender resolution of `handle_group_channel_message`: `from` if
present, else `sender_chat`, else none (early return). -/
def senderOf (m : Message) : Option (Int × String) :=
  match m.fromUser with
  | some u => some u
  | none => m.sender_chat

/-- `extract_message_content`. -/
def extract_message_content (m : Message) : String :=
  match m.content.text with
  | some t => t
  | none =>
    match m.content.caption with
    | some c => c
    | none =>
      match m.content.sticker with
      | some e => "Sticker: " ++ e
      | none =>
        if m.content.photo then "[Photo]"
        else if m.content.video then "[Video]"
        else
          match m.content.document with
          | some n => "Document: " ++ n
          | none =>
            if m.content.audio then "[Audio]"
            else if m.content.voice then "[Voice Message]"
            else "[Media Content]"

/-- `get_message_type`. -/
def get_message_type (m : Message) : String :=
  if m.content.text.isSome then "text"
  else if m.content.photo then "photo"
  else if m.content.video then "video"
  else if m.content.document.isSome then "document"
  else if m.content.sticker.isSome then "sticker"
  else if m.content.audio then "audio"
  else if m.content.voice then "voice"
  else "unknown"

/-- `handle_comment`: records a comment notification and bumps the
counter; requires a `from` user and a replied-to message. Owner
notifications are external I/O and not part of the store. -/
def handle_comment (db : DB) (m : Message) : DB :=
  match m.fromUser with
  | none => db
  | some (cid, cname) =>
    match m.reply_to with
    | none => db
    | some orig =>
      { db with
        comment_notifications := db.comment_notifications ++
          [{ channel_id := m.chat_id
             original_message_id := orig
             comment_message_id := m.message_id
             commenter_id := cid
             commenter_name := cname
             comment_text := extract_message_content m }]
        total_comments_detected := db.total_comments_detected + 1 }

/-- `INSERT OR IGNORE INTO non_admin_posts`: a no-op when a row with the
same `(channel_id, message_id)` already exists (the UNIQUE constraint),
else an append that consumes the next AUTOINCREMENT id. -/
def insert_or_ignore_post (db : DB) (r : PostRow) : DB :=
  if db.non_admin_posts.any
      (fun p => p.channel_id == r.channel_id && p.message_id == r.message_id) then
    db
  else
    { db with
      non_admin_posts := db.non_admin_posts ++ [r]
      next_post_id := db.next_post_id + 1 }

/-- `handle_group_channel_message` (the writes-succeed path): resolve the
sender, route replies to `handle_comment`, resolve the delete delay from
the admin table or the global setting, allow when the delay is 0, else
insert-or-ignore a pending-deletion row due at `now + delay`. -/
def handle_group_channel_message (now : Int) (db : DB) (m : Message) : DB :=
  match senderOf m with
  | none => db
  | some (uid, uname) =>
    if m.reply_to.isSome then handle_comment db m
    else
      let ds := resolved_delete_seconds db uid
      if ds = 0 then db
      else
        insert_or_ignore_post db
          { id := db.next_post_id
            channel_id := m.chat_id
            message_id := m.message_id
            user_id := uid
            user_name := uname
            delete_after_seconds := ds
            scheduled_delete_time := now + (ds : Int)
            is_active := true
            deleted_at := none
            post_content := extract_message_content m
            post_type := get_message_type m }

/-- The body of `handle_group_channel_message`'s `try` block with a fault
injected at the `non_admin_posts` INSERT: when `writeOk` is false the
INSERT raises (`Except.error`), exactly where the real store write sits. -/
def handle_group_channel_message_attempt (now : Int) (db : DB) (m : Message)
    (writeOk : Bool) : Except String DB :=
  match senderOf m with
  | none => Except.ok db
  | some (uid, uname) =>
    if m.reply_to.isSome then Except.ok (handle_comment db m)
    else
      let ds := resolved_delete_seconds db uid
      if ds = 0 then Except.ok db
      else if writeOk then
        Except.ok (insert_or_ignore_post db
          { id := db.next_post_id
            channel_id := m.chat_id
            message_id := m.message_id
            user_id := uid
            user_name := uname
            delete_after_seconds := ds
            scheduled_delete_time := now + (ds : Int)
            is_active := true
            deleted_at := none
            post_content := extract_message_content m
            post_type := get_message_type m })
      else Except.error "database write failed"

/-- `handle_group_channel_message` as its caller sees it: the whole body
sits in `try/except Exception: print(...)`, so a raising write is caught
and the handler returns normally with the store unchanged. -/
def handle_group_channel_message_guarded (now : Int) (db : DB) (m : Message)
    (writeOk : Bool) : Except String DB :=
  match handle_group_channel_message_attempt now db m writeOk with
  | Except.ok d => Except.ok d
  | Except.error _ => Except.ok db

/-- Outcome of one `deleteMessage` HTTP call. -/
inductive DeleteOutcome
  | success
  | not_found
  | error
deriving DecidableEq, Repr

/-- `delete_message`: returns `True` and bumps `total_posts_deleted` only
when the API answers ok; a `not_found` answer (`ok = false`) and a raised
transient error both just return `False` — neither propagates. -/
def delete_message (db : DB) (o : DeleteOutcome) : DB × Bool :=
  match o with
  | DeleteOutcome.success =>
    ({ db with total_posts_deleted := db.total_posts_deleted + 1 }, true)
  | DeleteOutcome.not_found => (db, false)
  | DeleteOutcome.error => (db, false)

/-- The field assignment of
`UPDATE non_admin_posts SET is_active = 0, deleted_at = now`. -/
def markRow (now : Int) (q : PostRow) : PostRow :=
  { q with is_active := false, deleted_at := some now }

/-- `UPDATE non_admin_posts SET is_active = 0, deleted_at = now WHERE id = ?`. -/
def markById (db : DB) (pid : Nat) (now : Int) : DB :=
  { db with
    non_admin_posts := db.non_admin_posts.map
      (fun q => if q.id == pid then markRow now q else q) }

/-- The per-row body of the sweeper loop: call `delete_message` and, only
when it returned `True`, mark the row inactive. -/
def sweepStep (api : Int → Int → DeleteOutcome) (now : Int)
    (acc : DB) (p : PostRow) : DB :=
  let r := delete_message acc (api p.channel_id p.message_id)
  if r.2 then markById r.1 p.id now else r.1

/-- One sweeper cycle, `check_and_delete_posts`: fetch the due rows
(`is_active = 1 AND scheduled_delete_time <= now`), then run `sweepStep`
on each. `api` gives the Delete API's outcome per
`(channel_id, message_id)`. -/
def check_and_delete_posts (now : Int) (db : DB)
    (api : Int → Int → DeleteOutcome) : DB :=
  (db.non_admin_posts.filter
    (fun p => p.is_active && decide (p.scheduled_delete_time ≤ now))).foldl
    (sweepStep api now) db

/-- Result of an add-admin attempt. -/
inductive AddResult
  | alreadyAdmin
  | added
  | dbError
  | notAuthorized
deriving DecidableEq, Repr

/-- `add_admin` (the callback path; `add_admin_direct` shares this body):
if an active admin row exists, report "already protected" and change
nothing; otherwise a plain INSERT — which raises on the UNIQUE `user_id`
constraint when an inactive row remains (caught, nothing committed) —
appends a row with `delete_after_seconds = 0`, `is_active = 1`. -/
def add_admin (db : DB) (target : Int) (addedBy : Int) : DB × AddResult :=
  match admin_lookup db target with
  | some _ => (db, AddResult.alreadyAdmin)
  | none =>
    if db.channel_admins.any (fun a => a.user_id == target) then
      (db, AddResult.dbError)
    else
      ({ db with
         channel_admins := db.channel_admins ++
           [{ user_id := target
              first_name := "User" ++ toString target
              added_by := addedBy
              delete_after_seconds := 0
              is_active := true }]
         total_admins_added := db.total_admins_added + 1 },
       AddResult.added)

/-- `add_admin_direct`: the command/text-input path; identical to
`add_admin` behind an `is_authorized_user` gate. -/
def add_admin_direct (db : DB) (adminId : Int) (userId : Int) : DB × AddResult :=
  if is_authorized_user db userId then add_admin db adminId userId
  else (db, AddResult.notAuthorized)

/-- `delete_admin`: if any row for the user exists (active or not),
`UPDATE channel_admins SET is_active = 0 WHERE user_id = ?` — a soft
delete; the row itself stays in the table. -/
def delete_admin (db : DB) (adminId : Int) : DB :=
  if db.channel_admins.any (fun a => a.user_id == adminId) then
    { db with
      channel_admins := db.channel_admins.map
        (fun a => if a.user_id == adminId
                  then { a with is_active := false } else a) }
  else db

/-- `set_admin_delete_time`: look the key up in `DELETE_TIME_OPTIONS`
(default 0), and update the admin's `delete_after_seconds` when a row for
that user exists. -/
def set_admin_delete_time (db : DB) (adminId : Int) (key : String) : DB :=
  let seconds := (DELETE_TIME_OPTIONS key).getD 0
  if db.channel_admins.any (fun a => a.user_id == adminId) then
    { db with
      channel_admins := db.channel_admins.map
        (fun a => if a.user_id == adminId
                  then { a with delete_after_seconds := seconds } else a) }
  else db

/-- `set_global_delete_time`: look the key up (default 86400) and update
the single `global_settings` row. -/
def set_global_delete_time (db : DB) (key : String) : DB :=
  let seconds := (DELETE_TIME_OPTIONS key).getD 86400
  { db with global_delete_seconds := seconds }

/-- Number of live (unprocessed) pending-deletion rows for one
`(channel_id, message_id)` pair. -/
def liveCount (db : DB) (c : Int) (mi : Int) : Nat :=
  (db.non_admin_posts.filter
    (fun p => p.channel_id == c && p.message_id == mi && p.is_active)).length

/-- The `UNIQUE(channel_id, message_id)` constraint as a predicate on the
store: no two `non_admin_posts` rows share a pair. -/
def PairsUnique (db : DB) : Prop :=
  db.non_admin_posts.Pairwise
    (fun p q => ¬(p.channel_id = q.channel_id ∧ p.message_id = q.message_id))

/-- The states of the store reachable through the program's operations,
starting from `setup_database`. -/
inductive Reachable : DB → Prop
  | init (owners : List Int) : Reachable (setup_database owners)
  | msg {db : DB} (now : Int) (m : Message) :
      Reachable db → Reachable (handle_group_channel_message now db m)
  | sweep {db : DB} (now : Int) (api : Int → Int → DeleteOutcome) :
      Reachable db → Reachable (check_and_delete_posts now db api)
  | addDirect {db : DB} (a u : Int) :
      Reachable db → Reachable (add_admin_direct db a u).1
  | addCb {db : DB} (a u : Int) :
      Reachable db → Reachable (add_admin db a u).1
  | removeAdmin {db : DB} (a : Int) :
      Reachable db → Reachable (delete_admin db a)
  | setGlobal {db : DB} (k : String) :
      Reachable db → Reachable (set_global_delete_time db k)
  | setAdminTime {db : DB} (a : Int) (k : String) :
      Reachable db → Reachable (set_admin_delete_time db a k)

/-! ## Basic lemmas about the operations -/

@[simp] theorem markRow_id (now : Int) (q : PostRow) : (markRow now q).id = q.id := rfl

@[simp] theorem markRow_channel_id (now : Int) (q : PostRow) :
    (markRow now q).channel_id = q.channel_id := rfl

@[simp] theorem markRow_message_id (now : Int) (q : PostRow) :
    (markRow now q).message_id = q.message_id := rfl

theorem markRow_idem (now : Int) (q : PostRow) :
    markRow now (markRow now q) = markRow now q := rfl

theorem posts_handle_comment (db : DB) (m : Message) :
    (handle_comment db m).non_admin_posts = db.non_admin_posts := by
  unfold handle_comment
  split
  · rfl
  · split <;> rfl

theorem handler_of_no_sender (now : Int) (db : DB) (m : Message)
    (h : senderOf m = none) :
    handle_group_channel_message now db m = db := by
  unfold handle_group_channel_message
  rw [h]

theorem handler_posts_of_reply (now : Int) (db : DB) (m : Message)
    (h : m.reply_to.isSome = true) :
    (handle_group_channel_message now db m).non_admin_posts = db.non_admin_posts := by
  unfold handle_group_channel_message
  split
  · rfl
  · simp [h, posts_handle_comment]

theorem handler_posts_of_admin_zero (now : Int) (db : DB) (m : Message)
    (uid : Int) (uname : String) (a : AdminRow)
    (hs : senderOf m = some (uid, uname))
    (hl : admin_lookup db uid = some a)
    (hz : a.delete_after_seconds = 0) :
    (handle_group_channel_message now db m).non_admin_posts = db.non_admin_posts := by
  unfold handle_group_channel_message
  rw [hs]
  by_cases hr : m.reply_to.isSome
  · simp [hr, posts_handle_comment]
  · have hres : resolved_delete_seconds db uid = 0 := by
      unfold resolved_delete_seconds
      rw [hl]
      exact hz
    simp [hr, hres]

theorem handler_posts_of_fresh_defer (now : Int) (db : DB) (m : Message)
    (uid : Int) (uname : String)
    (hs : senderOf m = some (uid, uname)) (hr : m.reply_to = none)
    (hd : resolved_delete_seconds db uid ≠ 0)
    (hfresh : db.non_admin_posts.any
      (fun p => p.channel_id == m.chat_id && p.message_id == m.message_id) = false) :
    (handle_group_channel_message now db m).non_admin_posts
      = db.non_admin_posts ++
        [{ id := db.next_post_id
           channel_id := m.chat_id
           message_id := m.message_id
           user_id := uid
           user_name := uname
           delete_after_seconds := resolved_delete_seconds db uid
           scheduled_delete_time := now + (resolved_delete_seconds db uid : Int)
           is_active := true
           deleted_at := none
           post_content := extract_message_content m
           post_type := get_message_type m }] := by
  unfold handle_group_channel_message insert_or_ignore_post
  rw [hs]
  simp [hr, hd, hfresh]

theorem handler_posts_of_pair_exists (now : Int) (db : DB) (m : Message)
    (hex : db.non_admin_posts.any
      (fun p => p.channel_id == m.chat_id && p.message_id == m.message_id) = true) :
    (handle_group_channel_message now db m).non_admin_posts = db.non_admin_posts := by
  unfold handle_group_channel_message
  split
  · rfl
  · rename_i uid uname heq
    by_cases hr : m.reply_to.isSome
    · simp [hr, posts_handle_comment]
    · by_cases hd : resolved_delete_seconds db uid = 0
      · simp [hr, hd]
      · simp [hr, hd, insert_or_ignore_post, hex]

/-! ## Concrete scenario data -/

/-- A fresh store whose only deployment owner is user 9. -/
def exDB : DB := setup_database [9]

/-- A reply (comment) from user 43. -/
def exReplyMsg : Message :=
  { chat_id := -100, message_id := 8, date := 5
    fromUser := some (43, "Visitor"), reply_to := some 2
    content := { text := some "a comment" } }

/-- A non-admin text message dated 0 (arbitrarily old). -/
def exOldMsg : Message :=
  { chat_id := -100, message_id := 7, date := 0
    fromUser := some (43, "Visitor"), content := { text := some "hello" } }

/-- A non-admin text message used for the write-failure scenario. -/
def c8msg : Message :=
  { chat_id := -100, message_id := 9, date := 6
    fromUser := some (44, "Visitor"), content := { text := some "spam" } }

/-- The store after the owner adds user 42 as a protected admin. -/
def c2db : DB := (add_admin_direct exDB 42 9).1

/-- A message from admin 42 in chat -100. -/
def c2msgA : Message :=
  { chat_id := -100, message_id := 11, date := 6
    fromUser := some (42, "Admin"), content := { text := some "a" } }

/-- The same admin posting in a different chat, -200. -/
def c2msgB : Message :=
  { chat_id := -200, message_id := 12, date := 6
    fromUser := some (42, "Admin"), content := { text := some "b" } }

/-- A non-admin, user 43, posting in chat -200. -/
def c2msgC : Message :=
  { chat_id := -200, message_id := 13, date := 6
    fromUser := some (43, "Other"), content := { text := some "c" } }

/-- The store after adding admin 42 and then setting their per-admin
delete time to 30 seconds. -/
def c3db : DB := set_admin_delete_time (add_admin exDB 42 9).1 42 "30s"

/-- A message from admin 42 (whose delete time is 30s). -/
def c3msg : Message :=
  { chat_id := -100, message_id := 21, date := 6
    fromUser := some (42, "Poster"), content := { text := some "post" } }

/-- The store after adding admin 42 and then removing them. -/
def c7db : DB := delete_admin (add_admin exDB 42 9).1 42

/-! ## Claim C9 -/

/-- Claim C9 (confirmed): an inbound message carrying `reply_to_message`
is diverted to comment handling before the admin check and the scheduling
insert, so no pending-deletion row is ever created for it, regardless of
sender or admin status. -/
theorem replies_never_scheduled (now : Int) (db : DB) (m : Message)
    (h : m.reply_to.isSome = true) :
    (handle_group_channel_message now db m).non_admin_posts = db.non_admin_posts :=
  handler_posts_of_reply now db m h

/-- Witness for `replies_never_scheduled` at a concrete reply message. -/
theorem replies_never_scheduled_witness :
    exReplyMsg.reply_to.isSome = true ∧
      (handle_group_channel_message 50 exDB exReplyMsg).non_admin_posts
        = exDB.non_admin_posts :=
  ⟨rfl, replies_never_scheduled 50 exDB exReplyMsg rfl⟩

/-! ## Claim C5 -/

/-- Claim C5 counterexample: the code keeps no `activated_at` and never
reads a message's date. A message dated 0 — earlier than any activation
instant, e.g. 1 — still gets a pending-deletion row when handled. -/
theorem admission_predates_activation_cex :
    exOldMsg.date < 1 ∧
      (handle_group_channel_message 1000 exDB exOldMsg).non_admin_posts
        ≠ exDB.non_admin_posts := by
  decide

/-- Claim C5 (amended): `handle_group_channel_message` never reads the
message's date; admission depends only on the sender and the delete-time
settings, so messages predating any putative activation time are treated
like any other message. -/
theorem admission_ignores_timestamp (now : Int) (db : DB) (m : Message)
    (d1 d2 : Int) :
    handle_group_channel_message now db { m with date := d1 }
      = handle_group_channel_message now db { m with date := d2 } := by
  cases m
  rfl

/-! ## Claim C7 -/

/-- Claim C7 counterexample: after the owner adds admin 42 and removes
them, a `channel_admins` record for 42 still exists — flagged inactive —
so the remove is not a hard delete. -/
theorem remove_admin_record_persists_cex :
    c7db.channel_admins
      = [{ user_id := 42, first_name := "User42", added_by := 9
           delete_after_seconds := 0, is_active := false }] := by
  decide

/-- Claim C7 (amended): `delete_admin` soft-deletes — it flips
`is_active` to 0 on every record of that user and keeps the records —
after which the user has no active admin row, so their messages resolve
to the global delete time like any non-admin; pending posts are
untouched. -/
theorem delete_admin_posts (db : DB) (a : Int) :
    (delete_admin db a).non_admin_posts = db.non_admin_posts := by
  unfold delete_admin
  split <;> rfl

theorem delete_admin_global (db : DB) (a : Int) :
    (delete_admin db a).global_delete_seconds = db.global_delete_seconds := by
  unfold delete_admin
  split <;> rfl

theorem remove_admin_soft_deletes (db : DB) (a : Int) :
    (delete_admin db a).channel_admins
        = db.channel_admins.map
            (fun r => if r.user_id == a then { r with is_active := false } else r)
      ∧ admin_lookup (delete_admin db a) a = none
      ∧ (delete_admin db a).non_admin_posts = db.non_admin_posts
      ∧ resolved_delete_seconds (delete_admin db a) a
          = db.global_delete_seconds := by
  have hlook : admin_lookup (delete_admin db a) a = none := by
    unfold delete_admin
    by_cases h : db.channel_admins.any (fun r => r.user_id == a) = true
    · rw [if_pos h]
      unfold admin_lookup
      rw [List.find?_eq_none]
      intro x hx
      rcases List.mem_map.mp hx with ⟨r, hr, rfl⟩
      by_cases hu : (r.user_id == a) = true <;> simp [hu]
    · rw [if_neg h]
      unfold admin_lookup
      rw [List.find?_eq_none]
      intro x hx
      have hb : db.channel_admins.any (fun r => r.user_id == a) = false := by
        simpa using h
      have hnr := List.any_eq_false.mp hb x hx
      simp only [Bool.not_eq_true] at hnr
      simp [hnr]
  refine ⟨?_, hlook, delete_admin_posts db a, ?_⟩
  · unfold delete_admin
    by_cases h : db.channel_admins.any (fun r => r.user_id == a) = true
    · rw [if_pos h]
    · rw [if_neg h]
      have hb : db.channel_admins.any (fun r => r.user_id == a) = false := by
        simpa using h
      refine Eq.symm ((List.map_congr_left ?_).trans (List.map_id' _))
      intro r hr
      have hnr := List.any_eq_false.mp hb r hr
      simp only [Bool.not_eq_true] at hnr
      simp [hnr]
  · unfold resolved_delete_seconds
    rw [hlook, delete_admin_global]

/-! ## Claim C8 -/

/-- Claim C8 counterexample: with the store write failing, the `try`
body does raise at the INSERT, but the handler's blanket `except` catches
it and returns normally with the store unchanged — the caller never sees
the error and the scheduling request is silently lost. -/
theorem schedule_write_failure_swallowed_cex :
    handle_group_channel_message_attempt 3 exDB c8msg false
        = Except.error "database write failed"
      ∧ handle_group_channel_message_guarded 3 exDB c8msg false
        = Except.ok exDB :=
  ⟨rfl, rfl⟩

/-- Claim C8 (amended): scheduling errors never propagate —
`handle_group_channel_message` always returns normally to its caller,
whatever the store write does. -/
theorem schedule_errors_never_propagate (now : Int) (db : DB) (m : Message)
    (writeOk : Bool) :
    ∃ d, handle_group_channel_message_guarded now db m writeOk = Except.ok d := by
  unfold handle_group_channel_message_guarded
  rcases h : handle_group_channel_message_attempt now db m writeOk with e | d
  · exact ⟨db, rfl⟩
  · exact ⟨d, rfl⟩

/-! ## Claim C2 -/

/-- Claim C2 counterexample: the `channel_admins` table has no channel
column, so after the owner adds user 42 (an operation that takes no
channel at all), 42's messages are exempt in chat -100 and equally in the
unrelated chat -200 — while a non-admin's message in -200 is scheduled —
contradicting "exempts ... only in that channel, never in any other
channel". -/
theorem admin_scope_not_channel_scoped_cex :
    (handle_group_channel_message 0 c2db c2msgA).non_admin_posts
        = c2db.non_admin_posts
      ∧ (handle_group_channel_message 0 c2db c2msgB).non_admin_posts
        = c2db.non_admin_posts
      ∧ (handle_group_channel_message 0 c2db c2msgC).non_admin_posts
        ≠ c2db.non_admin_posts := by
  decide

/-- Claim C2 (amended): allowed-admin membership is global, keyed by
`user_id` alone: a user with an active zero-delay admin row is exempt
from deletion scheduling in every chat alike. -/
theorem admin_exemption_is_global (now : Int) (db : DB) (m : Message)
    (c1 c2 : Int) (uid : Int) (uname : String) (a : AdminRow)
    (hf : m.fromUser = some (uid, uname))
    (hl : admin_lookup db uid = some a)
    (hz : a.delete_after_seconds = 0) :
    (handle_group_channel_message now db { m with chat_id := c1 }).non_admin_posts
        = db.non_admin_posts
      ∧ (handle_group_channel_message now db { m with chat_id := c2 }).non_admin_posts
        = db.non_admin_posts := by
  constructor <;>
    exact handler_posts_of_admin_zero now db _ uid uname a
      (by unfold senderOf; simp [hf]) hl hz

/-- Witness for `admin_exemption_is_global`: admin 42 posting in chats
-100 and -300 of the concrete store. -/
theorem admin_exemption_is_global_witness :
    (handle_group_channel_message 0 c2db { c2msgA with chat_id := -100 }).non_admin_posts
        = c2db.non_admin_posts
      ∧ (handle_group_channel_message 0 c2db { c2msgA with chat_id := -300 }).non_admin_posts
        = c2db.non_admin_posts :=
  admin_exemption_is_global 0 c2db c2msgA (-100) (-300) 42 "Admin"
    { user_id := 42, first_name := "User42", added_by := 9
      delete_after_seconds := 0, is_active := true }
    rfl (by decide) rfl

/-! ## Claim C3 -/

/-- Claim C3 counterexample: user 42 is in the admin set but with a
30-second per-admin delete time, and their message does get a
pending-deletion row — refuting "ALLOW for every sender in the admin
set, regardless". -/
theorem admin_allow_unconditional_cex :
    admin_lookup c3db 42
        = some { user_id := 42, first_name := "User42", added_by := 9
                 delete_after_seconds := 30, is_active := true }
      ∧ (handle_group_channel_message 0 c3db c3msg).non_admin_posts
        ≠ c3db.non_admin_posts := by
  decide

/-- Claim C3 (amended): a sender with an active admin row is ALLOWed iff
that row's `delete_after_seconds` is 0; with a nonzero per-admin time the
message is scheduled, with the admin's own delay, due at `now + delay`. -/
theorem admin_allow_iff_zero_delay :
    (∀ (now : Int) (db : DB) (m : Message) (uid : Int) (uname : String)
        (a : AdminRow), m.fromUser = some (uid, uname) →
        admin_lookup db uid = some a → a.delete_after_seconds = 0 →
        (handle_group_channel_message now db m).non_admin_posts
          = db.non_admin_posts)
    ∧ (∀ (now : Int) (db : DB) (m : Message) (uid : Int) (uname : String)
        (a : AdminRow), m.fromUser = some (uid, uname) → m.reply_to = none →
        admin_lookup db uid = some a → a.delete_after_seconds ≠ 0 →
        db.non_admin_posts.any
          (fun p => p.channel_id == m.chat_id && p.message_id == m.message_id)
          = false →
        (handle_group_channel_message now db m).non_admin_posts
          = db.non_admin_posts ++
            [{ id := db.next_post_id
               channel_id := m.chat_id
               message_id := m.message_id
               user_id := uid
               user_name := uname
               delete_after_seconds := a.delete_after_seconds
               scheduled_delete_time := now + (a.delete_after_seconds : Int)
               is_active := true
               deleted_at := none
               post_content := extract_message_content m
               post_type := get_message_type m }]) := by
  constructor
  · intro now db m uid uname a hf hl hz
    exact handler_posts_of_admin_zero now db m uid uname a
      (by unfold senderOf; simp [hf]) hl hz
  · intro now db m uid uname a hf hr hl hnz hfresh
    have hres : resolved_delete_seconds db uid = a.delete_after_seconds := by
      unfold resolved_delete_seconds
      rw [hl]
    have := handler_posts_of_fresh_defer now db m uid uname
      (by unfold senderOf; simp [hf]) hr (by rw [hres]; exact hnz) hfresh
    rw [hres] at this
    exact this

/-- Witness for `admin_allow_iff_zero_delay`: the 30-second admin's
message is scheduled with delay 30, due at `100 + 30`. -/
theorem admin_allow_iff_zero_delay_witness :
    (handle_group_channel_message 100 c3db c3msg).non_admin_posts
      = c3db.non_admin_posts ++
        [{ id := c3db.next_post_id
           channel_id := c3msg.chat_id
           message_id := c3msg.message_id
           user_id := 42
           user_name := "Poster"
           delete_after_seconds := 30
           scheduled_delete_time := 100 + ((30 : Nat) : Int)
           is_active := true
           deleted_at := none
           post_content := extract_message_content c3msg
           post_type := get_message_type c3msg }] :=
  admin_allow_iff_zero_delay.2 100 c3db c3msg 42 "Poster"
    { user_id := 42, first_name := "User42", added_by := 9
      delete_after_seconds := 30, is_active := true }
    rfl rfl (by decide) (by decide) (by decide)

/-! ## Claim C10 -/

/-- A message from the freshly added admin 42. -/
def c10msg : Message :=
  { chat_id := -100, message_id := 31, date := 6
    fromUser := some (42, "NewAdmin"), content := { text := some "post" } }

/-- Claim C10 (confirmed): both `add_admin` and `add_admin_direct`
insert the new admin with `delete_after_seconds = 0`, so immediately
after a successful add, no message from that user is scheduled for
deletion. -/
theorem new_admin_never_deleted (db : DB) (t byU : Int) (db1 : DB)
    (h : add_admin db t byU = (db1, AddResult.added)
         ∨ add_admin_direct db t byU = (db1, AddResult.added)) :
    admin_lookup db1 t
        = some { user_id := t, first_name := "User" ++ toString t
                 added_by := byU, delete_after_seconds := 0, is_active := true }
      ∧ ∀ (now : Int) (m : Message) (uname : String),
          m.fromUser = some (t, uname) →
          (handle_group_channel_message now db1 m).non_admin_posts
            = db1.non_admin_posts := by
  have hadd : add_admin db t byU = (db1, AddResult.added) := by
    rcases h with h | h
    · exact h
    · unfold add_admin_direct at h
      by_cases hauth : is_authorized_user db byU = true
      · rw [if_pos hauth] at h
        exact h
      · rw [if_neg hauth] at h
        simp [Prod.ext_iff] at h
  unfold add_admin at hadd
  cases hl : admin_lookup db t with
  | some a =>
    rw [hl] at hadd
    simp [Prod.ext_iff] at hadd
  | none =>
    rw [hl] at hadd
    by_cases hany : (db.channel_admins.any (fun r => r.user_id == t)) = true
    · rw [if_pos hany] at hadd
      simp [Prod.ext_iff] at hadd
    · rw [if_neg hany] at hadd
      have hb : db.channel_admins.any (fun r => r.user_id == t) = false := by
        simpa using hany
      have hdb1 : db1 = { db with
          channel_admins := db.channel_admins ++
            [{ user_id := t, first_name := "User" ++ toString t
               added_by := byU, delete_after_seconds := 0, is_active := true }]
          total_admins_added := db.total_admins_added + 1 } :=
        (congrArg Prod.fst hadd).symm
      subst hdb1
      have hlook : admin_lookup { db with
          channel_admins := db.channel_admins ++
            [{ user_id := t, first_name := "User" ++ toString t
               added_by := byU, delete_after_seconds := 0, is_active := true }]
          total_admins_added := db.total_admins_added + 1 } t
          = some { user_id := t, first_name := "User" ++ toString t
                   added_by := byU, delete_after_seconds := 0, is_active := true } := by
        unfold admin_lookup
        rw [List.find?_append]
        have hnone : db.channel_admins.find?
            (fun r => r.user_id == t && r.is_active) = none := by
          rw [List.find?_eq_none]
          intro x hx
          have hnr := List.any_eq_false.mp hb x hx
          simp only [Bool.not_eq_true] at hnr
          simp [hnr]
        rw [hnone, List.find?_cons_of_pos _ (by simp)]
        rfl
      refine ⟨hlook, ?_⟩
      intro now m uname hf
      exact handler_posts_of_admin_zero now _ m t uname _
        (by unfold senderOf; simp [hf]) hlook rfl

/-- Witness for `new_admin_never_deleted`: right after the owner adds
user 42, a message of 42's is not scheduled. -/
theorem new_admin_never_deleted_witness :
    (handle_group_channel_message 7 c2db c10msg).non_admin_posts
      = c2db.non_admin_posts :=
  (new_admin_never_deleted exDB 42 9 c2db (Or.inr (by decide))).2 7 c10msg
    "NewAdmin" rfl

/-! ## Claim C6 -/

/-- A non-admin message used for the due-time scenario. -/
def c6msg : Message :=
  { chat_id := -100, message_id := 41, date := 6
    fromUser := some (44, "Visitor"), content := { text := some "x" } }

/-- Claim C6 (confirmed): a pending deletion's due time is fixed at
scheduling time as `now` plus the delay in effect at that moment, and a
later change to the global delete-delay setting leaves every field of
every existing pending-deletion row unchanged. -/
theorem due_time_fixed_at_scheduling :
    (∀ (db : DB) (k : String),
        (set_global_delete_time db k).non_admin_posts = db.non_admin_posts)
    ∧ (∀ (now : Int) (db : DB) (m : Message) (uid : Int) (uname : String),
        senderOf m = some (uid, uname) → m.reply_to = none →
        resolved_delete_seconds db uid ≠ 0 →
        db.non_admin_posts.any
          (fun p => p.channel_id == m.chat_id && p.message_id == m.message_id)
          = false →
        (handle_group_channel_message now db m).non_admin_posts
          = db.non_admin_posts ++
            [{ id := db.next_post_id
               channel_id := m.chat_id
               message_id := m.message_id
               user_id := uid
               user_name := uname
               delete_after_seconds := resolved_delete_seconds db uid
               scheduled_delete_time := now + (resolved_delete_seconds db uid : Int)
               is_active := true
               deleted_at := none
               post_content := extract_message_content m
               post_type := get_message_type m }]) := by
  constructor
  · intro db k
    rfl
  · intro now db m uid uname hs hr hd hfresh
    exact handler_posts_of_fresh_defer now db m uid uname hs hr hd hfresh

/-- Witness for `due_time_fixed_at_scheduling`: scheduling a non-admin
message at time 500 under the default 86400-second delay yields a row due
at `500 + 86400`, and a later switch of the global delay to one hour
leaves the posts table as it was. -/
theorem due_time_fixed_at_scheduling_witness :
    (set_global_delete_time (handle_group_channel_message 500 exDB c6msg) "1h").non_admin_posts
        = (handle_group_channel_message 500 exDB c6msg).non_admin_posts
      ∧ (handle_group_channel_message 500 exDB c6msg).non_admin_posts
        = exDB.non_admin_posts ++
          [{ id := exDB.next_post_id
             channel_id := c6msg.chat_id
             message_id := c6msg.message_id
             user_id := 44
             user_name := "Visitor"
             delete_after_seconds := resolved_delete_seconds exDB 44
             scheduled_delete_time := 500 + (resolved_delete_seconds exDB 44 : Int)
             is_active := true
             deleted_at := none
             post_content := extract_message_content c6msg
             post_type := get_message_type c6msg }] :=
  ⟨due_time_fixed_at_scheduling.1 (handle_group_channel_message 500 exDB c6msg) "1h",
   due_time_fixed_at_scheduling.2 500 exDB c6msg 44 "Visitor" rfl rfl
     (by decide) (by decide)⟩

/-! ## The sweeper's effect on the posts table -/

theorem sweepStep_posts (api : Int → Int → DeleteOutcome) (now : Int)
    (acc : DB) (p : PostRow) :
    (sweepStep api now acc p).non_admin_posts
      = acc.non_admin_posts.map
          (fun q => if q.id == p.id
                && (api p.channel_id p.message_id == DeleteOutcome.success)
              then markRow now q else q) := by
  unfold sweepStep delete_message markById
  cases h : api p.channel_id p.message_id <;> simp

theorem sweep_foldl_posts (api : Int → Int → DeleteOutcome) (now : Int)
    (due : List PostRow) :
    ∀ acc : DB,
      (due.foldl (sweepStep api now) acc).non_admin_posts
        = acc.non_admin_posts.map
            (fun q => if due.any (fun p => q.id == p.id
                  && (api p.channel_id p.message_id == DeleteOutcome.success))
                then markRow now q else q) := by
  induction due with
  | nil =>
    intro acc
    simp
  | cons p due ih =>
    intro acc
    rw [List.foldl_cons, ih, sweepStep_posts, List.map_map]
    apply List.map_congr_left
    intro q _
    by_cases hp : (q.id == p.id
        && (api p.channel_id p.message_id == DeleteOutcome.success)) = true
    · rw [Bool.and_eq_true] at hp
      have h1 : q.id = p.id := by simpa using hp.1
      have h2 : api p.channel_id p.message_id = DeleteOutcome.success := by
        simpa using hp.2
      simp [h1, h2, markRow_idem]
    · have hno : ¬(q.id = p.id
          ∧ api p.channel_id p.message_id = DeleteOutcome.success) := by
        intro hcon
        exact hp (by simp [hcon.1, hcon.2])
      simp [hno]

/-! ## Claim C1 -/

/-- A pending-deletion row that is due at time 10. -/
def c1row : PostRow :=
  { id := 0, channel_id := -100, message_id := 7, user_id := 43
    user_name := "Visitor", delete_after_seconds := 30
    scheduled_delete_time := 3, is_active := true, deleted_at := none
    post_content := "hello", post_type := "text" }

/-- A store holding just that due row. -/
def c1db : DB := { exDB with non_admin_posts := [c1row], next_post_id := 1 }

/-- Claim C1 counterexample: a due row whose Delete API call answers
`not_found` is NOT marked processed — the sweeper leaves it untouched
(`is_active` still 1), to be retried next cycle — contradicting "marks
that row processed regardless of the Delete API outcome". -/
theorem sweeper_not_found_row_stays_unprocessed_cex :
    c1row.is_active = true ∧ c1row.scheduled_delete_time ≤ 10
      ∧ (check_and_delete_posts 10 c1db
          (fun _ _ => DeleteOutcome.not_found)).non_admin_posts = [c1row] := by
  decide

/-- Claim C1 (amended): a sweeper cycle marks processed exactly the due
rows whose Delete API call reports success; rows whose call reports
`not_found` or a transient error stay unprocessed (and are retried on a
later cycle), and no outcome raises out of the cycle — the cycle is a
total function of the store. Stated for stores whose row ids are unique
(the AUTOINCREMENT key). -/
theorem sweeper_marks_exactly_successful_due_rows (now : Int) (db : DB)
    (api : Int → Int → DeleteOutcome)
    (hids : (db.non_admin_posts.map (fun p => p.id)).Nodup) :
    (check_and_delete_posts now db api).non_admin_posts
      = db.non_admin_posts.map
          (fun p => if p.is_active = true ∧ p.scheduled_delete_time ≤ now
                ∧ api p.channel_id p.message_id = DeleteOutcome.success
              then markRow now p else p) := by
  unfold check_and_delete_posts
  rw [sweep_foldl_posts]
  apply List.map_congr_left
  intro q hq
  by_cases hc : q.is_active = true ∧ q.scheduled_delete_time ≤ now
      ∧ api q.channel_id q.message_id = DeleteOutcome.success
  · rw [if_pos hc]
    have hmem : q ∈ db.non_admin_posts.filter
        (fun p => p.is_active && decide (p.scheduled_delete_time ≤ now)) := by
      rw [List.mem_filter]
      exact ⟨hq, by simp [hc.1, hc.2.1]⟩
    have hany : (db.non_admin_posts.filter
        (fun p => p.is_active && decide (p.scheduled_delete_time ≤ now))).any
          (fun p => q.id == p.id
            && (api p.channel_id p.message_id == DeleteOutcome.success)) = true := by
      rw [List.any_eq_true]
      exact ⟨q, hmem, by simp [hc.2.2]⟩
    simp [hany]
  · rw [if_neg hc]
    have hany : (db.non_admin_posts.filter
        (fun p => p.is_active && decide (p.scheduled_delete_time ≤ now))).any
          (fun p => q.id == p.id
            && (api p.channel_id p.message_id == DeleteOutcome.success)) = false := by
      rw [List.any_eq_false]
      intro p hp
      rw [List.mem_filter] at hp
      intro hcontra
      rw [Bool.and_eq_true] at hcontra
      have hqp : q.id = p.id := by simpa using hcontra.1
      have hqeq : q = p := List.inj_on_of_nodup_map hids hq hp.1 hqp
      apply hc
      have hdue := hp.2
      rw [Bool.and_eq_true] at hdue
      have hsucc : api p.channel_id p.message_id = DeleteOutcome.success := by
        simpa using hcontra.2
      rw [hqeq]
      exact ⟨hdue.1, of_decide_eq_true hdue.2, hsucc⟩
    simp [hany]

/-- Witness for `sweeper_marks_exactly_successful_due_rows`: with a
successful API, the single due row of the concrete store is marked
processed. -/
theorem sweeper_marks_exactly_successful_due_rows_witness :
    (c1db.non_admin_posts.map (fun p => p.id)).Nodup
      ∧ (check_and_delete_posts 10 c1db
          (fun _ _ => DeleteOutcome.success)).non_admin_posts
        = c1db.non_admin_posts.map
            (fun p => if p.is_active = true ∧ p.scheduled_delete_time ≤ 10
                  ∧ DeleteOutcome.success = DeleteOutcome.success
                then markRow 10 p else p) :=
  ⟨by decide,
   sweeper_marks_exactly_successful_due_rows 10 c1db
     (fun _ _ => DeleteOutcome.success) (by decide)⟩

/-! ## The UNIQUE(channel_id, message_id) invariant -/

theorem pairsUnique_of_posts_eq {db1 db2 : DB}
    (h : db2.non_admin_posts = db1.non_admin_posts) :
    PairsUnique db1 → PairsUnique db2 := by
  intro hp
  unfold PairsUnique at hp ⊢
  rw [h]
  exact hp

theorem pairsUnique_insert (db : DB) (r : PostRow) (h : PairsUnique db) :
    PairsUnique (insert_or_ignore_post db r) := by
  unfold insert_or_ignore_post
  by_cases hex : db.non_admin_posts.any
      (fun p => p.channel_id == r.channel_id && p.message_id == r.message_id) = true
  · rw [if_pos hex]
    exact h
  · rw [if_neg hex]
    have hb2 : db.non_admin_posts.any
        (fun p => p.channel_id == r.channel_id && p.message_id == r.message_id)
        = false := by
      simpa using hex
    unfold PairsUnique at h ⊢
    rw [List.pairwise_append]
    refine ⟨h, List.pairwise_singleton _ _, ?_⟩
    intro a ha b hb
    rw [List.mem_singleton] at hb
    subst hb
    rintro ⟨h1, h2⟩
    exact absurd
      (by simp [h1, h2] :
        (a.channel_id == b.channel_id && a.message_id == b.message_id) = true)
      (by simpa using List.any_eq_false.mp hb2 a ha)

theorem ite_markRow_channel_id (c : Prop) [Decidable c] (now : Int) (q : PostRow) :
    (if c then markRow now q else q).channel_id = q.channel_id := by
  split <;> rfl

theorem ite_markRow_message_id (c : Prop) [Decidable c] (now : Int) (q : PostRow) :
    (if c then markRow now q else q).message_id = q.message_id := by
  split <;> rfl

theorem pairsUnique_handler (now : Int) (db : DB) (m : Message)
    (h : PairsUnique db) :
    PairsUnique (handle_group_channel_message now db m) := by
  unfold handle_group_channel_message
  split
  · exact h
  · rename_i uid uname heq
    by_cases hr : m.reply_to.isSome = true
    · rw [if_pos hr]
      exact pairsUnique_of_posts_eq (posts_handle_comment db m) h
    · rw [if_neg hr]
      by_cases hd : resolved_delete_seconds db uid = 0
      · rw [if_pos hd]
        exact h
      · rw [if_neg hd]
        exact pairsUnique_insert db _ h

theorem pairsUnique_sweep (now : Int) (db : DB)
    (api : Int → Int → DeleteOutcome) (h : PairsUnique db) :
    PairsUnique (check_and_delete_posts now db api) := by
  unfold PairsUnique at h ⊢
  unfold check_and_delete_posts
  rw [sweep_foldl_posts, List.pairwise_map]
  refine List.Pairwise.imp ?_ h
  intro a b hab hcon
  apply hab
  rcases hcon with ⟨h1, h2⟩
  rw [ite_markRow_channel_id, ite_markRow_channel_id] at h1
  rw [ite_markRow_message_id, ite_markRow_message_id] at h2
  exact ⟨h1, h2⟩

theorem add_admin_posts (db : DB) (t byU : Int) :
    ((add_admin db t byU).1).non_admin_posts = db.non_admin_posts := by
  unfold add_admin
  split
  · rfl
  · split <;> rfl

theorem add_admin_direct_posts (db : DB) (a u : Int) :
    ((add_admin_direct db a u).1).non_admin_posts = db.non_admin_posts := by
  unfold add_admin_direct
  split
  · exact add_admin_posts db a u
  · rfl

theorem set_admin_delete_time_posts (db : DB) (a : Int) (k : String) :
    (set_admin_delete_time db a k).non_admin_posts = db.non_admin_posts := by
  unfold set_admin_delete_time
  split <;> rfl

theorem pairsUnique_reachable {db : DB} (h : Reachable db) : PairsUnique db := by
  induction h with
  | init owners => exact List.Pairwise.nil
  | msg now m _ ih => exact pairsUnique_handler now _ m ih
  | sweep now api _ ih => exact pairsUnique_sweep now _ api ih
  | addDirect a u _ ih =>
    exact pairsUnique_of_posts_eq (add_admin_direct_posts _ a u) ih
  | addCb a u _ ih => exact pairsUnique_of_posts_eq (add_admin_posts _ a u) ih
  | removeAdmin a _ ih => exact pairsUnique_of_posts_eq (delete_admin_posts _ a) ih
  | setGlobal k _ ih => exact pairsUnique_of_posts_eq rfl ih
  | setAdminTime a k _ ih =>
    exact pairsUnique_of_posts_eq (set_admin_delete_time_posts _ a k) ih

theorem liveCount_le_one_of_pairsUnique (db : DB) (c mi : Int)
    (h : PairsUnique db) : liveCount db c mi ≤ 1 := by
  unfold liveCount
  have hp : (db.non_admin_posts.filter
      (fun p => p.channel_id == c && p.message_id == mi && p.is_active)).Pairwise
      (fun p q => ¬(p.channel_id = q.channel_id ∧ p.message_id = q.message_id)) :=
    List.Pairwise.sublist (List.filter_sublist _) h
  cases hfl : db.non_admin_posts.filter
      (fun p => p.channel_id == c && p.message_id == mi && p.is_active) with
  | nil => simp [hfl]
  | cons a t =>
    cases t with
    | nil => simp [hfl]
    | cons b t2 =>
      exfalso
      rw [hfl] at hp
      have hr := (List.pairwise_cons.mp hp).1 b (List.mem_cons_self _ _)
      have haf : a ∈ db.non_admin_posts.filter
          (fun p => p.channel_id == c && p.message_id == mi && p.is_active) := by
        rw [hfl]
        exact List.mem_cons_self _ _
      have hbf : b ∈ db.non_admin_posts.filter
          (fun p => p.channel_id == c && p.message_id == mi && p.is_active) := by
        rw [hfl]
        exact List.mem_cons_of_mem _ (List.mem_cons_self _ _)
      have ha2 := (List.mem_filter.mp haf).2
      have hb2 := (List.mem_filter.mp hbf).2
      simp only [Bool.and_eq_true, beq_iff_eq] at ha2 hb2
      exact hr ⟨ha2.1.1.trans hb2.1.1.symm, ha2.1.2.trans hb2.1.2.symm⟩

/-! ## Claim C4 -/

/-- Claim C4 (confirmed): scheduling is idempotent. In every reachable
store state there is at most one live pending-deletion row per
`(channel_id, message_id)` pair (the `UNIQUE` constraint with
`INSERT OR IGNORE`), and handling the same deferrable message twice
before it is processed leaves exactly one live row for its pair. -/
theorem schedule_idempotent :
    (∀ db : DB, Reachable db → ∀ c mi : Int, liveCount db c mi ≤ 1)
    ∧ (∀ (now1 now2 : Int) (db : DB) (m : Message) (uid : Int) (uname : String),
        senderOf m = some (uid, uname) → m.reply_to = none →
        resolved_delete_seconds db uid ≠ 0 →
        db.non_admin_posts.any
          (fun p => p.channel_id == m.chat_id && p.message_id == m.message_id)
          = false →
        liveCount (handle_group_channel_message now2
            (handle_group_channel_message now1 db m) m) m.chat_id m.message_id
          = 1) := by
  constructor
  · intro db h c mi
    exact liveCount_le_one_of_pairsUnique db c mi (pairsUnique_reachable h)
  · intro now1 now2 db m uid uname hs hr hd hfresh
    have h1 := handler_posts_of_fresh_defer now1 db m uid uname hs hr hd hfresh
    have hex : (handle_group_channel_message now1 db m).non_admin_posts.any
        (fun p => p.channel_id == m.chat_id && p.message_id == m.message_id)
        = true := by
      rw [h1, List.any_eq_true]
      exact ⟨_, List.mem_append_right _ (List.mem_singleton_self _), by simp⟩
    unfold liveCount
    rw [handler_posts_of_pair_exists now2 _ m hex, h1, List.filter_append]
    have hfilter : db.non_admin_posts.filter
        (fun p => p.channel_id == m.chat_id && p.message_id == m.message_id
          && p.is_active) = [] := by
      rw [List.filter_eq_nil_iff]
      intro p hp
      have hnp := List.any_eq_false.mp hfresh p hp
      cases hA : (p.channel_id == m.chat_id) <;>
        cases hB : (p.message_id == m.message_id) <;> simp_all
    rw [hfilter]
    simp

/-- Witness for `schedule_idempotent`: handling the same non-admin
message twice against the fresh store leaves one live row for its pair,
and the initial store trivially satisfies the at-most-one bound. -/
theorem schedule_idempotent_witness :
    liveCount (handle_group_channel_message 5
        (handle_group_channel_message 3 exDB c6msg) c6msg)
        c6msg.chat_id c6msg.message_id = 1
      ∧ liveCount exDB 0 0 ≤ 1 :=
  ⟨schedule_idempotent.2 3 5 exDB c6msg 44 "Visitor" rfl rfl (by decide) rfl,
   schedule_idempotent.1 exDB (Reachable.init [9]) 0 0⟩

end ProtectionBot
